import Mathlib

/-!
Verification of the ddddocr-fastapi service layer (`src/app/main.py`) and of the
image-analysis core it calls, against the design specification.

The web layer (`decode_image`, `get_file_size`, the four endpoint handlers) is
embedded directly from `src/app/main.py`.  The core calls
(`ocr_classification`, `slide_match`, `detection`) live in `app/services`,
which is not part of the sources; they are modelled from the specification and
marked as such in their doc comments.
-/

namespace DdddOcr

instance {e a : Type} [DecidableEq e] [DecidableEq a] : DecidableEq (Except e a)
  | .ok x, .ok y =>
      if h : x = y then .isTrue (by rw [h]) else .isFalse (fun hc => by cases hc; exact h rfl)
  | .ok _, .error _ => .isFalse (fun hc => by cases hc)
  | .error _, .ok _ => .isFalse (fun hc => by cases hc)
  | .error x, .error y =>
      if h : x = y then .isTrue (by rw [h]) else .isFalse (fun hc => by cases hc; exact h rfl)

/-! ## Web-layer data model -/

/-- An HTTP exception as raised by `fastapi.HTTPException(status_code, detail)`. -/
structure HTTPError where
  status_code : Nat
  detail : String
deriving DecidableEq, Repr

/-- `str(e)` for a FastAPI `HTTPException`: `"{status_code}: {detail}"`. -/
def httpErrStr (e : HTTPError) : String :=
  toString e.status_code ++ ": " ++ e.detail

/-- The `Union[UploadFile, StarletteUploadFile, str, None]` argument of
`decode_image`.  An upload file is represented by its byte content
(`await file.read()` returns exactly that content). -/
inductive ImageInput where
  | file (content : List Nat)
  | str (s : String)
  | none
deriving DecidableEq, Repr

/-! ## Model of `base64.b64decode` (legacy mode, `validate=False`)

Characters outside the base64 alphabet are discarded, data after the first
padding character is ignored, and the remaining data-character count must be
compatible with the padding, else `binascii.Error` is raised (the caller only
observes that an exception was raised, so all failures are a bare `.error ()`). -/

def b64Alphabet : List Char :=
  "ABCDEFGHIJKLMNOPQRSTUVWXYZabcdefghijklmnopqrstuvwxyz0123456789+/".data

/-- Index of a character in the base64 alphabet, `none` if it is not in it. -/
def b64Index (c : Char) : Option Nat :=
  b64Alphabet.indexOf? c

/-- Decode complete sextet groups; the final partial group is legal only with
enough padding characters. -/
def decodeSextets (pads : Nat) : List Nat → Except Unit (List Nat)
  | a :: b :: c :: d :: rest => do
      let tail ← decodeSextets pads rest
      pure ([a * 4 + b / 16, (b % 16) * 16 + c / 4, (c % 4) * 64 + d] ++ tail)
  | [a, b, c] => if 1 ≤ pads then pure [a * 4 + b / 16, (b % 16) * 16 + c / 4] else throw ()
  | [a, b] => if 2 ≤ pads then pure [a * 4 + b / 16] else throw ()
  | [_] => throw ()
  | [] => pure []

/-- `base64.b64decode` on the characters of a Python `str`. -/
def b64DecodeChars (l : List Char) : Except Unit (List Nat) :=
  let f := l.filter (fun c => (b64Index c).isSome || c = '=')
  let data := f.takeWhile (fun c => c ≠ '=')
  let pads := ((f.drop data.length).filter (fun c => c = '=')).length
  decodeSextets pads (data.filterMap b64Index)

/-! ## `decode_image` (src/app/main.py lines 13-29) -/

/-- Python `image.split(',')`: split a character list at every comma. -/
def splitOnComma : List Char → List (List Char)
  | [] => [[]]
  | c :: t =>
      if c = ',' then [] :: splitOnComma t
      else
        match splitOnComma t with
        | h :: r => (c :: h) :: r
        | [] => [[c]]

/-- `image.startswith(('data:image/', 'data:application/'))`. -/
def dataMimeStart (s : String) : Bool :=
  "data:image/".data.isPrefixOf s.data || "data:application/".data.isPrefixOf s.data

/-- The body of the `try` block in the string branch of `decode_image`:
strip the MIME prefix (taking index 1 of the split can fail, like Python's
`IndexError`) and base64-decode.  Any failure is caught by the bare `except`. -/
def decodeStrStep (s : String) : Except Unit (List Nat) := do
  let payload ←
    if dataMimeStart s then
      match (splitOnComma s.data).get? 1 with
      | some t => pure t
      | Option.none => throw ()
    else pure s.data
  b64DecodeChars payload

/-- `decode_image` from `src/app/main.py`: `None` and non-decodable strings
raise an `HTTPException(400, ...)`; an upload file yields its bytes. -/
def decode_image : ImageInput → Except HTTPError (List Nat)
  | .file c => .ok c
  | .str s =>
      match decodeStrStep s with
      | .ok b => .ok b
      | .error _ => .error ⟨400, "Invalid base64 string"⟩
  | .none => .error ⟨400, "No image provided"⟩

/-- `get_file_size` from `src/app/main.py`: reads the file in 1MB chunks and
sums the chunk lengths, which is the total byte length of the content. -/
def get_file_size (file : List Nat) : Nat :=
  file.length

/-- Python's `file or image` applied to an `Optional[UploadFile]` and an
`Optional[str]`: an upload file object is always truthy, `None` is falsy, so
the file wins whenever present and otherwise the string is used (even `""`). -/
def pyOr : Option (List Nat) → Option String → ImageInput
  | some f, _ => .file f
  | Option.none, some s => .str s
  | Option.none, Option.none => .none

/-- The string-or-`None` image argument of the endpoints, as `decode_image`
receives it. -/
def strInput : Option String → ImageInput
  | some s => .str s
  | Option.none => .none

/-! ## Endpoint handlers

Each handler is embedded parametrically in the core service call it makes
(`except Exception as e` catches anything, with message `str(e)`, so the core
is a function into `Except String α`).  Alongside the `APIResponse` the
embedding returns the trace of core calls the handler performed, so theorems
can speak about what was passed to the core and whether it was invoked. -/

/-- `APIResponse(code, message, data)` from `app/models`. -/
structure APIResponse (α : Type) where
  code : Nat
  message : String
  data : Option α
deriving DecidableEq, Repr

/-- One call to `ocr_service.ocr_classification(image_bytes, probability,
charsets, png_fix)`, in argument order. -/
structure OcrCall where
  image_bytes : List Nat
  probability : Bool
  charsets : Option String
  png_fix : Bool
deriving DecidableEq, Repr

/-- One call to `ocr_service.slide_match(target_bytes, background_bytes,
simple_target)`, in argument order. -/
structure SlideCall where
  target_bytes : List Nat
  background_bytes : List Nat
  simple_target : Bool
deriving DecidableEq, Repr

/-- One call to `ocr_service.detection(image_bytes)`. -/
structure DetectionCall where
  image_bytes : List Nat
deriving DecidableEq, Repr

/-- The `/ocr` endpoint handler (src/app/main.py lines 46-62). -/
def ocr_endpoint {α : Type}
    (core : List Nat → Bool → Option String → Bool → Except String α)
    (file : Option (List Nat)) (image : Option String)
    (probability : Bool) (charsets : Option String) (png_fix : Bool) :
    APIResponse α × List OcrCall :=
  match file, image with
  | Option.none, Option.none =>
      (⟨400, "Either file or image must be provided", Option.none⟩, [])
  | _, _ =>
      match decode_image (pyOr file image) with
      | .error e => (⟨500, httpErrStr e, Option.none⟩, [])
      | .ok image_bytes =>
          match core image_bytes probability charsets png_fix with
          | .ok result =>
              (⟨200, "Success", some result⟩, [⟨image_bytes, probability, charsets, png_fix⟩])
          | .error e =>
              (⟨500, e, Option.none⟩, [⟨image_bytes, probability, charsets, png_fix⟩])

/-- The `/slide_match` endpoint handler (src/app/main.py lines 65-86).
The first guard fires when either image is missing in both forms; the second
when a supplied upload file has size 0 (`a and b or c and d` parses as
`(a and b) or (c and d)`). -/
def slide_match_endpoint {α : Type}
    (core : List Nat → List Nat → Bool → Except String α)
    (target_file background_file : Option (List Nat))
    (target background : Option String) (simple_target : Bool) :
    APIResponse α × List SlideCall :=
  if (target_file = Option.none ∧ target = Option.none) ∨
      (background_file = Option.none ∧ background = Option.none) then
    (⟨400, "Both target and background must be provided", Option.none⟩, [])
  else if (∃ f, target_file = some f ∧ get_file_size f = 0) ∨
      (∃ f, background_file = some f ∧ get_file_size f = 0) then
    (⟨400, "Both target and background files must not be empty", Option.none⟩, [])
  else
    match decode_image (pyOr target_file target) with
    | .error e => (⟨500, httpErrStr e, Option.none⟩, [])
    | .ok target_bytes =>
        match decode_image (pyOr background_file background) with
        | .error e => (⟨500, httpErrStr e, Option.none⟩, [])
        | .ok background_bytes =>
            match core target_bytes background_bytes simple_target with
            | .ok result =>
                (⟨200, "Success", some result⟩, [⟨target_bytes, background_bytes, simple_target⟩])
            | .error e =>
                (⟨500, e, Option.none⟩, [⟨target_bytes, background_bytes, simple_target⟩])

/-- The `/detection` endpoint handler (src/app/main.py lines 89-102). -/
def detection_endpoint {α : Type}
    (core : List Nat → Except String α)
    (file : Option (List Nat)) (image : Option String) :
    APIResponse α × List DetectionCall :=
  match file, image with
  | Option.none, Option.none =>
      (⟨400, "Either file or image must be provided", Option.none⟩, [])
  | _, _ =>
      match decode_image (pyOr file image) with
      | .error e => (⟨500, httpErrStr e, Option.none⟩, [])
      | .ok image_bytes =>
          match core image_bytes with
          | .ok bboxes => (⟨200, "Success", some bboxes⟩, [⟨image_bytes⟩])
          | .error e => (⟨500, e, Option.none⟩, [⟨image_bytes⟩])

/-- The JSON body returned by `/ocr/file/json`. -/
structure JsonResp where
  status : Nat
  result : String
  msg : String
deriving DecidableEq, Repr

/-- The `/ocr/file/json` endpoint handler (src/app/main.py lines 105-114):
the image is a required upload file, the core is called with the bytes only,
and both branches of the `try` return `status: 200`. -/
def ocr_file_json (core : List Nat → Except String String)
    (image : List Nat) : JsonResp :=
  match decode_image (.file image) with
  | .error e => ⟨200, "", httpErrStr e⟩
  | .ok image_bytes =>
      match core image_bytes with
      | .ok result => ⟨200, result, ""⟩
      | .error e => ⟨200, "", e⟩

/-! ## The image-analysis core

`app/services` is not among the sources, so the three core calls are modelled
from the specification (sections 4, 6 and 7), faithful to its words. -/

/-- Modelled from the spec: the error taxonomy of section 7 for the core calls
in `app/services` (absent from the sources). -/
inductive CoreError where
  | DecodeError
  | ShapeError
  | GeometryError
  | InferenceError
  | TimeoutError
deriving DecidableEq, Repr

/-- `str(e)` for a core error. -/
def CoreError.msg : CoreError → String
  | .DecodeError => "DecodeError: image bytes are empty or not a supported raster format"
  | .ShapeError => "ShapeError: image cannot satisfy the model input geometry"
  | .GeometryError => "GeometryError: incompatible tile and background dimensions"
  | .InferenceError => "InferenceError: numerical failure during model execution"
  | .TimeoutError => "TimeoutError: deadline exceeded during inference"

/-- Modelled from the spec: a decoded image, a contiguous array of 8-bit
samples with `data.length = height * width * channels` (section 3). -/
structure PixelBuffer where
  height : Nat
  width : Nat
  channels : Nat
  data : List Nat
deriving DecidableEq, Repr

/-- Modelled from the spec: `ImageCodec.decode(bytes)` (section 4.1, absent
from the sources).  The raster format is a header `[height, width, channels]`
followed by exactly `height * width * channels` samples; empty or malformed
bytes fail with `DecodeError`. -/
def ImageCodec.decode (bytes : List Nat) : Except CoreError PixelBuffer :=
  match bytes with
  | h :: w :: c :: samples =>
      if (c = 1 ∨ c = 3 ∨ c = 4) ∧ samples.length = h * w * c then
        .ok ⟨h, w, c, samples⟩
      else .error .DecodeError
  | _ => .error .DecodeError

/-- Composite RGBA samples over a white background, dropping the alpha
channel. -/
def compositeRGBA : List Nat → List Nat
  | r :: g :: b :: a :: rest =>
      (r * a + 255 * (255 - a)) / 255 :: (g * a + 255 * (255 - a)) / 255 ::
        (b * a + 255 * (255 - a)) / 255 :: compositeRGBA rest
  | _ => []

/-- Modelled from the spec: `ImageCodec.repair_png` (section 4.1, absent from
the sources) — composite a possibly corrupt RGBA image over a default
background into an opaque image rather than failing. -/
def repair_png (b : PixelBuffer) : PixelBuffer :=
  if b.channels = 4 then ⟨b.height, b.width, 3, compositeRGBA b.data⟩ else b

/-- A preprocessed model input: one row of samples per image row. -/
structure Tensor where
  rows : List (List Nat)
deriving DecidableEq, Repr

/-- Modelled from the spec: `PreprocessPipeline.prepare` (section 4.2, absent
from the sources) — lay the samples out row by row (the model's expected
numeric range is taken to be the 8-bit sample range, so value normalization is
the identity), failing with `ShapeError` on a zero-area image. -/
def prepare (b : PixelBuffer) : Except CoreError Tensor :=
  if b.height = 0 ∨ b.width = 0 then .error .ShapeError
  else
    .ok ⟨(List.range b.height).map (fun y =>
      (b.data.drop (y * b.width * b.channels)).take (b.width * b.channels))⟩

/-- The recognition vocabulary; index 0 is the blank symbol of the
sequence-decoding convention. -/
def vocab : List Char :=
  "#0123456789abcdefghijklmnopqrstuvwxyz".data

/-- Whether vocabulary index `i` survives the charset restriction: the blank
is always allowed, and with a charset only indices whose character belongs to
it are (section 4.3). -/
def allowedIdx (charset : Option String) (i : Nat) : Bool :=
  i = 0 ||
    match charset with
    | Option.none => true
    | some cs => decide (vocab.getD i ' ' ∈ cs.data)

/-- Modelled from the spec: forward inference (section 4.3, absent from the
sources) — each tensor row yields a score distribution over the vocabulary,
computed deterministically from the row's samples. -/
def infer (t : Tensor) : List (List Nat) :=
  t.rows.map (fun r =>
    (List.range vocab.length).map (fun i => r.getD (i % (r.length.max 1)) 0 * (i + 1)))

/-- First index attaining the maximal value of `f` on the list (ties broken
towards the earlier element). -/
def argmaxBy (f : Nat → Nat) : List Nat → Option Nat
  | [] => Option.none
  | x :: xs =>
      match argmaxBy f xs with
      | Option.none => some x
      | some y => if f x < f y then some y else some x

/-- Restrict a position's distribution to the allowed indices and take the
argmax, ties broken by lowest vocabulary index (section 4.3). -/
def bestAllowed (charset : Option String) (dist : List Nat) : Option Nat :=
  argmaxBy (fun i => dist.getD i 0)
    ((List.range dist.length).filter (fun i => allowedIdx charset i))

/-- The renormalized probability of index `i` in a distribution restricted to
the allowed indices (section 4.3). -/
def renormProb (charset : Option String) (dist : List Nat) (i : Nat) : ℚ :=
  let s := (((List.range dist.length).filter (fun j => allowedIdx charset j)).map
    (fun j => dist.getD j 0)).sum
  if s = 0 then 0 else (dist.getD i 0 : ℚ) / s

/-- Collapse adjacent repeats (CTC-style), on index/probability pairs. -/
def collapseRepeats : List (Nat × ℚ) → List (Nat × ℚ)
  | [] => []
  | [x] => [x]
  | x :: y :: rest =>
      if x.1 = y.1 then collapseRepeats (y :: rest)
      else x :: collapseRepeats (y :: rest)

/-- `RecognitionResult` from section 3: the decoded text and, when requested,
one confidence per emitted character. -/
structure RecognitionResult where
  text : List Char
  probability : Option (List ℚ)
deriving DecidableEq, Repr

/-- Modelled from the spec: `RecognitionEngine.recognize` (section 4.3, absent
from the sources) — per-position restricted argmax, collapse of
repeated/blank symbols, optional renormalized probabilities. -/
def recognize (t : Tensor) (charset : Option String) (wantProb : Bool) :
    RecognitionResult :=
  let dists := infer t
  let picked := dists.filterMap (fun d =>
    (bestAllowed charset d).map (fun i => (i, renormProb charset d i)))
  let kept := (collapseRepeats picked).filter (fun p => p.1 ≠ 0)
  ⟨kept.map (fun p => vocab.getD p.1 ' '),
    if wantProb then some (kept.map Prod.snd) else Option.none⟩

/-- Modelled from the spec: `ocr_service.ocr_classification(image_bytes,
probability, charsets, png_fix)` (absent from the sources) — decode, optional
PNG repair, preprocess, recognize (sections 4.1-4.3 and 6). -/
def ocr_classification (img : List Nat) (probability : Bool)
    (charsets : Option String) (png_fix : Bool) :
    Except CoreError RecognitionResult :=
  match ImageCodec.decode img with
  | .error e => .error e
  | .ok buf =>
      match prepare (if png_fix then repair_png buf else buf) with
      | .error e => .error e
      | .ok t => .ok (recognize t charsets probability)

/-- First-channel sample at pixel `(x, y)`, 0 outside the buffer. -/
def pixel (b : PixelBuffer) (x y : Nat) : Nat :=
  b.data.getD ((y * b.width + x) * b.channels) 0

/-- Horizontal gradient magnitude at `(x, y)` — the edge map of section 4.4. -/
def edge (b : PixelBuffer) (x y : Nat) : Nat :=
  max (pixel b (x + 1) y) (pixel b x y) - min (pixel b (x + 1) y) (pixel b x y)

/-- Edge-correlation score of the tile over the background at a horizontal
offset (section 4.4). -/
def matchScore (tile bg : PixelBuffer) (off : Nat) : Nat :=
  ((List.range tile.height).map (fun y =>
    ((List.range tile.width).map (fun x => edge tile x y * edge bg (x + off) y)).sum)).sum

/-- `GapOffset` from section 3: the matched offset, its score, and in simple
mode a reduced target descriptor (a centroid). -/
structure GapOffset where
  offset : Nat
  score : Nat
  target : Option (Nat × Nat)
deriving DecidableEq, Repr

/-- Modelled from the spec: `GapLocalizer.locate_gap` (section 4.4, absent
from the sources) — `GeometryError` when the tile is wider than the background
or either image is degenerate; otherwise the score-maximizing offset among
`0 .. background.width - tile.width`, smallest offset on ties; `simple` only
alters the returned descriptor. -/
def locate_gap (tile bg : PixelBuffer) (simple : Bool) :
    Except CoreError GapOffset :=
  if tile.width = 0 ∨ tile.height = 0 ∨ bg.width = 0 ∨ bg.height = 0 ∨
      bg.width < tile.width then
    .error .GeometryError
  else
    match argmaxBy (fun off => matchScore tile bg off)
        (List.range (bg.width - tile.width + 1)) with
    | some off =>
        .ok ⟨off, matchScore tile bg off,
          if simple then some (off + tile.width / 2, tile.height / 2) else Option.none⟩
    | Option.none => .error .GeometryError

/-- Modelled from the spec: `ocr_service.slide_match(target_bytes,
background_bytes, simple_target)` (absent from the sources) — decode both
blobs, then localize the gap (sections 4.1, 4.4 and 6). -/
def slide_match (target_bytes background_bytes : List Nat)
    (simple_target : Bool) : Except CoreError GapOffset :=
  match ImageCodec.decode target_bytes with
  | .error e => .error e
  | .ok tile =>
      match ImageCodec.decode background_bytes with
      | .error e => .error e
      | .ok bg => locate_gap tile bg simple_target

/-- `BoundingBox` from section 3. -/
structure BBox where
  x_min : Nat
  y_min : Nat
  x_max : Nat
  y_max : Nat
  score : Nat
deriving DecidableEq, Repr

/-- Modelled from the spec: raw per-cell box proposals with scores (section
4.5, absent from the sources) — one unit box per bright pixel. -/
def proposals (b : PixelBuffer) : List BBox :=
  (List.range b.height).flatMap (fun y =>
    (List.range b.width).filterMap (fun x =>
      let v := pixel b x y
      if 128 ≤ v then some ⟨x, y, x + 1, y + 1, v⟩ else Option.none))

/-- Area of a box. -/
def area (b : BBox) : Nat :=
  (b.x_max - b.x_min) * (b.y_max - b.y_min)

/-- Intersection area of two boxes. -/
def interArea (a b : BBox) : Nat :=
  (min a.x_max b.x_max - max a.x_min b.x_min) *
    (min a.y_max b.y_max - max a.y_min b.y_min)

/-- Intersection-over-union of two boxes. -/
def iou (a b : BBox) : ℚ :=
  let i := interArea a b
  let u := area a + area b - i
  if u = 0 then 0 else (i : ℚ) / u

/-- The detector's confidence threshold, on the 8-bit score scale (service
policy, section 9). -/
def scoreThreshold : Nat := 128

/-- The detector's suppression threshold (service policy, section 9). -/
def iouThreshold : ℚ := 45 / 100

/-- Greedy non-maximum suppression, structurally recursive on a fuel bound
that `nms` instantiates with the list length (the suppression filter only
shrinks the list, so the fuel never runs out). -/
def nmsAux (thr : ℚ) : Nat → List BBox → List BBox
  | 0, _ => []
  | _, [] => []
  | fuel + 1, b :: rest => b :: nmsAux thr fuel (rest.filter (fun c => iou b c ≤ thr))

/-- Greedy non-maximum suppression on a score-sorted list (section 4.5). -/
def nms (thr : ℚ) (l : List BBox) : List BBox :=
  nmsAux thr l.length l

/-- Modelled from the spec: `ocr_service.detection(image_bytes)` (absent from
the sources) — decode, propose, threshold, sort by descending score, suppress
(sections 4.1, 4.5 and 6). -/
def detection (img : List Nat) : Except CoreError (List BBox) :=
  match ImageCodec.decode img with
  | .error e => .error e
  | .ok buf =>
      .ok (nms iouThreshold (List.insertionSort (fun a b => b.score ≤ a.score)
        ((proposals buf).filter (fun bb => scoreThreshold ≤ bb.score))))

/-- `ocr_classification` as the `/ocr` endpoint sees it: exceptions carry
`str(e)`. -/
def ocrCoreS (b : List Nat) (p : Bool) (cs : Option String) (pf : Bool) :
    Except String RecognitionResult :=
  (ocr_classification b p cs pf).mapError CoreError.msg

/-- `slide_match` as the `/slide_match` endpoint sees it. -/
def slideCoreS (t b : List Nat) (s : Bool) : Except String GapOffset :=
  (slide_match t b s).mapError CoreError.msg

/-- `detection` as the `/detection` endpoint sees it. -/
def detectionCoreS (b : List Nat) : Except String (List BBox) :=
  (detection b).mapError CoreError.msg

/-- `ocr_classification(image_bytes)` with its default arguments, stringified,
as `/ocr/file/json` sees it. -/
def ocrCoreDefaultS (b : List Nat) : Except String String :=
  ((ocr_classification b false Option.none false).map
    (fun r => String.mk r.text)).mapError CoreError.msg

/-! ## Helper lemmas -/

/-- A successful `argmaxBy` returns an element of the candidate list. -/
theorem argmaxBy_mem {f : Nat → Nat} :
    ∀ {l : List Nat} {x : Nat}, argmaxBy f l = some x → x ∈ l := by
  intro l
  induction l with
  | nil => intro x h; simp [argmaxBy] at h
  | cons a t ih =>
      intro x h
      simp only [argmaxBy] at h
      cases ht : argmaxBy f t with
      | none =>
          rw [ht] at h
          cases h
          exact List.mem_cons_self a t
      | some y =>
          rw [ht] at h
          dsimp only at h
          by_cases hc : f a < f y
          · rw [if_pos hc] at h
            cases h
            exact List.mem_cons_of_mem a (ih ht)
          · rw [if_neg hc] at h
            cases h
            exact List.mem_cons_self a t

/-- Splitting a comma-free character list returns the list itself as the sole
fragment. -/
theorem splitOnComma_of_not_mem :
    ∀ {l : List Char}, ',' ∉ l → splitOnComma l = [l] := by
  intro l
  induction l with
  | nil => intro _; rfl
  | cons c t ih =>
      intro h
      have hc : ¬(c = ',') := fun hh => h (hh ▸ List.mem_cons_self c t)
      have ht : ',' ∉ t := fun hm => h (List.mem_cons_of_mem c hm)
      simp only [splitOnComma, if_neg hc, ih ht]

/-- Collapsing repeats only drops elements. -/
theorem mem_collapseRepeats :
    ∀ {l : List (Nat × ℚ)} {p : Nat × ℚ}, p ∈ collapseRepeats l → p ∈ l := by
  intro l
  induction l with
  | nil => intro p h; simp [collapseRepeats] at h
  | cons x t ih =>
      intro p h
      cases t with
      | nil => simpa [collapseRepeats] using h
      | cons y rest =>
          simp only [collapseRepeats] at h
          by_cases hxy : x.1 = y.1
          · rw [if_pos hxy] at h
            exact List.mem_cons_of_mem x (ih h)
          · rw [if_neg hxy] at h
            rcases List.mem_cons.mp h with rfl | h2
            · exact List.mem_cons_self _ _
            · exact List.mem_cons_of_mem _ (ih h2)

/-- The restricted argmax only picks allowed vocabulary indices. -/
theorem bestAllowed_allowed {cs : Option String} {d : List Nat} {i : Nat}
    (h : bestAllowed cs d = some i) : allowedIdx cs i = true :=
  (List.mem_filter.mp (argmaxBy_mem h)).2

/-- A non-blank allowed index names a character of the supplied charset. -/
theorem allowedIdx_some {cs : String} {i : Nat} (hne : i ≠ 0)
    (h : allowedIdx (some cs) i = true) : vocab.getD i ' ' ∈ cs.data := by
  simp only [allowedIdx, Bool.or_eq_true, decide_eq_true_eq] at h
  rcases h with h | h
  · exact absurd h hne
  · exact h

/-! ## Claim theorems, first batch -/

/-- C1: for every string whose base64 decoding step fails, `decode_image`
fails with the explicit typed error HTTP 400 / "Invalid base64 string" and
never falls back to another result; an endpoint call decoding a string either
receives the decoded bytes or exactly this typed error, and the `/ocr` handler
propagates the error as a failure response without calling the core. -/
theorem decode_image_typed_error :
    (∀ s : String, decodeStrStep s = .error () →
      decode_image (.str s) = .error ⟨400, "Invalid base64 string"⟩) ∧
    (∀ s : String,
      (∃ b, decode_image (.str s) = .ok b ∧ decodeStrStep s = .ok b) ∨
      decode_image (.str s) = .error ⟨400, "Invalid base64 string"⟩) ∧
    (∀ (α : Type) (core : List Nat → Bool → Option String → Bool → Except String α)
        (s : String) (p : Bool) (cs : Option String) (pf : Bool),
      decodeStrStep s = .error () →
      ocr_endpoint core Option.none (some s) p cs pf =
        (⟨500, httpErrStr ⟨400, "Invalid base64 string"⟩, Option.none⟩, [])) := by
  refine ⟨?_, ?_, ?_⟩
  · intro s h
    simp only [decode_image, h]
  · intro s
    cases h : decodeStrStep s with
    | ok b => exact .inl ⟨b, by simp only [decode_image, h], rfl⟩
    | error e => exact .inr (by simp only [decode_image, h])
  · intro α core s p cs pf h
    simp only [ocr_endpoint, pyOr, decode_image, h]

/-- Witness for C1 at the concrete string "a" (one base64 data character
cannot decode, so the typed 400 error is produced and propagated). -/
theorem decode_image_typed_error_witness :
    decode_image (.str "a") = .error ⟨400, "Invalid base64 string"⟩ ∧
    ocr_endpoint ocrCoreS Option.none (some "a") false Option.none false =
      (⟨500, httpErrStr ⟨400, "Invalid base64 string"⟩, Option.none⟩, []) :=
  ⟨decode_image_typed_error.1 "a" (by decide),
   decode_image_typed_error.2.2 _ ocrCoreS "a" false Option.none false (by decide)⟩

/-- C7: `decode_image` is deterministic on strings — the same string always
yields the same bytes or the same typed error (the embedding of
`decode_image` is a pure function, so two calls with equal arguments agree,
and the failure of the decoding step is likewise determined by the string). -/
theorem decode_image_deterministic :
    ∀ s₁ s₂ : String, s₁ = s₂ →
      decode_image (.str s₁) = decode_image (.str s₂) ∧
      (decodeStrStep s₁ = .error () ↔ decodeStrStep s₂ = .error ()) := by
  intro s₁ s₂ h
  subst h
  exact ⟨rfl, Iff.rfl⟩

/-- Witness for C7 at the concrete string "TWFu". -/
theorem decode_image_deterministic_witness :
    decode_image (.str "TWFu") = decode_image (.str "TWFu") ∧
    (decodeStrStep "TWFu" = .error () ↔ decodeStrStep "TWFu" = .error ()) :=
  decode_image_deterministic "TWFu" "TWFu" rfl

/-- C10: on every string-or-`None` input, `decode_image` either returns bytes
or fails with a status-400 `HTTPException` (never any other exception); in
particular a string starting with a data MIME prefix but containing no comma
fails with 400 "Invalid base64 string", because the index error from taking
the segment after the comma is caught by the surrounding handler. -/
theorem decode_image_only_400 :
    (∀ o : Option String,
      (∃ b, decode_image (strInput o) = .ok b) ∨
      (∃ e, decode_image (strInput o) = .error e ∧ e.status_code = 400)) ∧
    (∀ s : String, dataMimeStart s = true → ',' ∉ s.data →
      decode_image (.str s) = .error ⟨400, "Invalid base64 string"⟩) := by
  constructor
  · intro o
    cases o with
    | none => exact .inr ⟨⟨400, "No image provided"⟩, rfl, rfl⟩
    | some s =>
        cases h : decodeStrStep s with
        | ok b => exact .inl ⟨b, by simp only [strInput, decode_image, h]⟩
        | error e =>
            exact .inr ⟨⟨400, "Invalid base64 string"⟩,
              by simp only [strInput, decode_image, h], rfl⟩
  · intro s hpre hnc
    have hstep : decodeStrStep s = .error () := by
      simp only [decodeStrStep, hpre, if_true, splitOnComma_of_not_mem hnc]
      rfl
    simp only [decode_image, hstep]

/-- Witness for C10: a successful decode, and the comma-free data-MIME string
"data:image/png" hitting the 400 error. -/
theorem decode_image_only_400_witness :
    ((∃ b, decode_image (strInput (some "TWFu")) = .ok b) ∨
      (∃ e, decode_image (strInput (some "TWFu")) = .error e ∧ e.status_code = 400)) ∧
    decode_image (.str "data:image/png") = .error ⟨400, "Invalid base64 string"⟩ :=
  ⟨decode_image_only_400.1 (some "TWFu"),
   decode_image_only_400.2 "data:image/png" (by decide) (by decide)⟩

/-- C9: `/ocr/file/json` answers with a body whose `status` field is 200 on
success and on failure alike; on failure the `result` field is empty and
`msg` carries the error message, so the `status` field never distinguishes
success from error. -/
theorem ocr_file_json_always_200 :
    ∀ (core : List Nat → Except String String) (img : List Nat),
      (ocr_file_json core img).status = 200 ∧
      (∀ e, core img = .error e → ocr_file_json core img = ⟨200, "", e⟩) ∧
      (∀ r, core img = .ok r → ocr_file_json core img = ⟨200, r, ""⟩) := by
  intro core img
  refine ⟨?_, fun e he => ?_, fun r hr => ?_⟩
  · cases h : core img <;> simp [ocr_file_json, decode_image, h]
  · simp [ocr_file_json, decode_image, he]
  · simp [ocr_file_json, decode_image, hr]

/-- Witness for C9, with the spec-modelled core at a decodable and at an empty
image. -/
theorem ocr_file_json_always_200_witness :
    ocr_file_json ocrCoreDefaultS [1, 1, 1, 200] = ⟨200, "z", ""⟩ ∧
    ocr_file_json ocrCoreDefaultS [] = ⟨200, "", CoreError.msg .DecodeError⟩ :=
  ⟨(ocr_file_json_always_200 ocrCoreDefaultS [1, 1, 1, 200]).2.2 "z" (by decide),
   (ocr_file_json_always_200 ocrCoreDefaultS []).2.1 (CoreError.msg .DecodeError) (by decide)⟩


/-! ## Endpoint helper lemmas -/

/-- `ImageCodec.decode` can only fail with `DecodeError`. -/
theorem decode_error_eq {b : List Nat} {e : CoreError}
    (h : ImageCodec.decode b = .error e) : e = .DecodeError := by
  cases b with
  | nil => exact (Except.error.inj h).symm
  | cons x t =>
    cases t with
    | nil => exact (Except.error.inj h).symm
    | cons y t2 =>
      cases t2 with
      | nil => exact (Except.error.inj h).symm
      | cons z samples =>
          simp only [ImageCodec.decode] at h
          split at h
          · simp at h
          · exact (Except.error.inj h).symm

/-- When the image decodes, the `/ocr` handler calls the core exactly once,
with the decoded bytes and its three flags in order. -/
theorem ocr_trace_eq {α : Type}
    (core : List Nat → Bool → Option String → Bool → Except String α)
    (file : Option (List Nat)) (image : Option String)
    (p : Bool) (cs : Option String) (pf : Bool) (b : List Nat)
    (hdec : decode_image (pyOr file image) = .ok b) :
    (ocr_endpoint core file image p cs pf).2 = [⟨b, p, cs, pf⟩] := by
  cases file with
  | some f =>
      have hb : f = b := by simpa [pyOr, decode_image] using hdec
      subst hb
      cases image <;> cases hcore : core f p cs pf <;>
        simp [ocr_endpoint, pyOr, decode_image, hcore]
  | none =>
      cases image with
      | none => simp [pyOr, decode_image] at hdec
      | some str =>
          simp only [pyOr] at hdec
          cases hcore : core b p cs pf <;>
            simp [ocr_endpoint, pyOr, hdec, hcore]

/-- A core error during an `/ocr` request becomes exactly the code-500
response with the error's message. -/
theorem ocr_err_prop {α : Type}
    (core : List Nat → Bool → Option String → Bool → Except String α)
    (file : Option (List Nat)) (image : Option String)
    (p : Bool) (cs : Option String) (pf : Bool) (b : List Nat) (e : String)
    (hdec : decode_image (pyOr file image) = .ok b)
    (hcore : core b p cs pf = .error e) :
    (ocr_endpoint core file image p cs pf).1 = ⟨500, e, Option.none⟩ := by
  cases file with
  | some f =>
      have hb : f = b := by simpa [pyOr, decode_image] using hdec
      subst hb
      cases image <;> simp [ocr_endpoint, pyOr, decode_image, hcore]
  | none =>
      cases image with
      | none => simp [pyOr, decode_image] at hdec
      | some str =>
          simp only [pyOr] at hdec
          simp [ocr_endpoint, pyOr, hdec, hcore]

/-- When the image decodes, the `/detection` handler calls the core exactly
once, with the decoded bytes. -/
theorem det_trace_eq {α : Type}
    (core : List Nat → Except String α)
    (file : Option (List Nat)) (image : Option String) (b : List Nat)
    (hdec : decode_image (pyOr file image) = .ok b) :
    (detection_endpoint core file image).2 = [⟨b⟩] := by
  cases file with
  | some f =>
      have hb : f = b := by simpa [pyOr, decode_image] using hdec
      subst hb
      cases image <;> cases hcore : core f <;>
        simp [detection_endpoint, pyOr, decode_image, hcore]
  | none =>
      cases image with
      | none => simp [pyOr, decode_image] at hdec
      | some str =>
          simp only [pyOr] at hdec
          cases hcore : core b <;>
            simp [detection_endpoint, pyOr, hdec, hcore]

/-- A core error during a `/detection` request becomes exactly the code-500
response with the error's message. -/
theorem det_err_prop {α : Type}
    (core : List Nat → Except String α)
    (file : Option (List Nat)) (image : Option String) (b : List Nat) (e : String)
    (hdec : decode_image (pyOr file image) = .ok b)
    (hcore : core b = .error e) :
    (detection_endpoint core file image).1 = ⟨500, e, Option.none⟩ := by
  cases file with
  | some f =>
      have hb : f = b := by simpa [pyOr, decode_image] using hdec
      subst hb
      cases image <;> simp [detection_endpoint, pyOr, decode_image, hcore]
  | none =>
      cases image with
      | none => simp [pyOr, decode_image] at hdec
      | some str =>
          simp only [pyOr] at hdec
          simp [detection_endpoint, pyOr, hdec, hcore]

/-- An empty uploaded target file makes `/slide_match` answer the code-400
emptiness failure without any core call, provided the background is present
in some form. -/
theorem slide_empty_target {α : Type}
    (core : List Nat → List Nat → Bool → Except String α)
    (f : List Nat) (bf : Option (List Nat)) (t b : Option String) (st : Bool)
    (hsz : get_file_size f = 0) (hbg : bf ≠ Option.none ∨ b ≠ Option.none) :
    slide_match_endpoint core (some f) bf t b st =
      (⟨400, "Both target and background files must not be empty", Option.none⟩, []) := by
  unfold slide_match_endpoint
  rw [if_neg, if_pos]
  · exact Or.inl ⟨f, rfl, hsz⟩
  · rintro (⟨hf, -⟩ | ⟨hbf, hb⟩)
    · exact Option.noConfusion hf
    · rcases hbg with hh | hh
      · exact hh hbf
      · exact hh hb

/-- An empty uploaded background file makes `/slide_match` answer the code-400
emptiness failure without any core call, provided the target is present in
some form. -/
theorem slide_empty_background {α : Type}
    (core : List Nat → List Nat → Bool → Except String α)
    (tf : Option (List Nat)) (g : List Nat) (t b : Option String) (st : Bool)
    (hsz : get_file_size g = 0) (htg : tf ≠ Option.none ∨ t ≠ Option.none) :
    slide_match_endpoint core tf (some g) t b st =
      (⟨400, "Both target and background files must not be empty", Option.none⟩, []) := by
  unfold slide_match_endpoint
  rw [if_neg, if_pos]
  · exact Or.inr ⟨g, rfl, hsz⟩
  · rintro (⟨htf, ht⟩ | ⟨hg, -⟩)
    · rcases htg with hh | hh
      · exact hh htf
      · exact hh ht
    · exact Option.noConfusion hg

/-- When both images are supplied as non-empty files, `/slide_match` calls
the core exactly once, with the two files' bytes and the flag. -/
theorem slide_trace_eq {α : Type}
    (core : List Nat → List Nat → Bool → Except String α)
    (tf bf : List Nat) (ts bs : Option String) (st : Bool)
    (h1 : get_file_size tf ≠ 0) (h2 : get_file_size bf ≠ 0) :
    (slide_match_endpoint core (some tf) (some bf) ts bs st).2 = [⟨tf, bf, st⟩] := by
  unfold slide_match_endpoint
  rw [if_neg, if_neg]
  · cases hcore : core tf bf st <;> simp [pyOr, decode_image, hcore]
  · rintro (⟨f, hf, hsz⟩ | ⟨f, hf, hsz⟩)
    · cases Option.some.inj hf; exact h1 hsz
    · cases Option.some.inj hf; exact h2 hsz
  · rintro (⟨hf, -⟩ | ⟨hf, -⟩) <;> exact Option.noConfusion hf

/-- A core error during a `/slide_match` request that passed both guards
becomes exactly the code-500 response with the error's message. -/
theorem slide_err_prop {α : Type}
    (core : List Nat → List Nat → Bool → Except String α)
    (tf bf : Option (List Nat)) (ts bs : Option String) (st : Bool)
    (tb bb : List Nat) (e : String)
    (hdec1 : decode_image (pyOr tf ts) = .ok tb)
    (hdec2 : decode_image (pyOr bf bs) = .ok bb)
    (hg : ¬((∃ f, tf = some f ∧ get_file_size f = 0) ∨
      (∃ f, bf = some f ∧ get_file_size f = 0)))
    (hcore : core tb bb st = .error e) :
    (slide_match_endpoint core tf bf ts bs st).1 = ⟨500, e, Option.none⟩ := by
  have h1 : ¬((tf = Option.none ∧ ts = Option.none) ∨
      (bf = Option.none ∧ bs = Option.none)) := by
    rintro (⟨ha, hb⟩ | ⟨ha, hb⟩)
    · rw [ha, hb] at hdec1
      simp [pyOr, decode_image] at hdec1
    · rw [ha, hb] at hdec2
      simp [pyOr, decode_image] at hdec2
  unfold slide_match_endpoint
  rw [if_neg h1, if_neg hg, hdec1]
  dsimp only
  rw [hdec2]
  dsimp only
  rw [hcore]

/-- The text recognized under a charset restriction only uses the charset's
characters. -/
theorem recognize_text_in_charset (t : Tensor) (cs : String) (p : Bool) :
    ∀ c ∈ (recognize t (some cs) p).text, c ∈ cs.data := by
  intro c hc
  simp only [recognize] at hc
  rcases List.mem_map.mp hc with ⟨pr, hpr, rfl⟩
  rcases List.mem_filter.mp hpr with ⟨hcol, hne⟩
  rcases List.mem_filterMap.mp (mem_collapseRepeats hcol) with ⟨d, hd, hfd⟩
  rcases Option.map_eq_some'.mp hfd with ⟨i, hbest, hgi⟩
  have h1 : pr.1 = i := by rw [← hgi]
  have hall : allowedIdx (some cs) pr.1 = true := h1 ▸ bestAllowed_allowed hbest
  have hne' : pr.1 ≠ 0 := by simpa using hne
  exact allowedIdx_some hne' hall

/-- A successful `ocr_classification` result is a `recognize` output for the
same charset and probability flag. -/
theorem ocr_ok_exists {img : List Nat} {p : Bool} {cs : Option String} {pf : Bool}
    {res : RecognitionResult} (h : ocr_classification img p cs pf = .ok res) :
    ∃ t : Tensor, res = recognize t cs p := by
  unfold ocr_classification at h
  cases hdec : ImageCodec.decode img with
  | error e => rw [hdec] at h; simp at h
  | ok buf =>
      rw [hdec] at h
      dsimp only at h
      cases hprep : prepare (if pf then repair_png buf else buf) with
      | error e => rw [hprep] at h; simp at h
      | ok t =>
          rw [hprep] at h
          dsimp only at h
          exact ⟨t, (Except.ok.inj h).symm⟩

/-! ## Claim theorems, second batch -/

/-- C4: for every supplied charset, every character of the text returned by
the recognition call belongs to it, and the `/ocr` endpoint forwards the
caller's `charsets` parameter unchanged to `ocr_classification`. -/
theorem charset_restriction :
    (∀ (img : List Nat) (p : Bool) (cs : String) (pf : Bool) (res : RecognitionResult),
      ocr_classification img p (some cs) pf = .ok res →
      ∀ c ∈ res.text, c ∈ cs.data) ∧
    (∀ (α : Type) (core : List Nat → Bool → Option String → Bool → Except String α)
        (file : Option (List Nat)) (image : Option String)
        (p : Bool) (cs : Option String) (pf : Bool) (b : List Nat),
      decode_image (pyOr file image) = .ok b →
      (ocr_endpoint core file image p cs pf).2 = [⟨b, p, cs, pf⟩]) := by
  constructor
  · intro img p cs pf res h
    rcases ocr_ok_exists h with ⟨t, rfl⟩
    exact recognize_text_in_charset t cs p
  · intro α core file image p cs pf b hdec
    exact ocr_trace_eq core file image p cs pf b hdec

/-- Witness for C4 at a concrete image and the charset "ab", plus a concrete
forwarded call. -/
theorem charset_restriction_witness :
    (∀ c ∈ (RecognitionResult.mk ['b'] Option.none).text, c ∈ "ab".data) ∧
    (ocr_endpoint ocrCoreS (some [9]) Option.none true (some "ab") false).2 =
      [⟨[9], true, some "ab", false⟩] :=
  ⟨charset_restriction.1 [1, 1, 1, 200] false "ab" false ⟨['b'], Option.none⟩ (by decide),
   charset_restriction.2 _ ocrCoreS (some [9]) Option.none true (some "ab") false [9]
     (by decide)⟩

/-- C5: a successful gap-localization offset lies between 0 and
`background.width - tile.width`, also when reached through `slide_match` on
raw byte blobs. -/
theorem gap_offset_bound :
    (∀ (tile bg : PixelBuffer) (simple : Bool) (res : GapOffset),
      locate_gap tile bg simple = .ok res →
      0 ≤ res.offset ∧ res.offset ≤ bg.width - tile.width ∧
        res.offset + tile.width ≤ bg.width) ∧
    (∀ (tb bb : List Nat) (simple : Bool) (res : GapOffset) (tile bg : PixelBuffer),
      ImageCodec.decode tb = .ok tile → ImageCodec.decode bb = .ok bg →
      slide_match tb bb simple = .ok res →
      res.offset ≤ bg.width - tile.width) := by
  have main : ∀ (tile bg : PixelBuffer) (simple : Bool) (res : GapOffset),
      locate_gap tile bg simple = .ok res →
      0 ≤ res.offset ∧ res.offset ≤ bg.width - tile.width ∧
        res.offset + tile.width ≤ bg.width := by
    intro tile bg simple res h
    unfold locate_gap at h
    split at h
    · simp at h
    · rename_i hguard
      cases harg : argmaxBy (fun off => matchScore tile bg off)
          (List.range (bg.width - tile.width + 1)) with
      | none => rw [harg] at h; simp at h
      | some off =>
          rw [harg] at h
          dsimp only at h
          have hres : res.offset = off := by rw [← Except.ok.inj h]
          have hmem := List.mem_range.mp (argmaxBy_mem harg)
          have htw : tile.width ≤ bg.width := by
            push_neg at hguard
            exact hguard.2.2.2.2
          refine ⟨Nat.zero_le _, ?_, ?_⟩ <;> omega
  refine ⟨main, ?_⟩
  intro tb bb simple res tile bg hdt hdb h
  unfold slide_match at h
  rw [hdt] at h
  dsimp only at h
  rw [hdb] at h
  dsimp only at h
  exact (main tile bg simple res h).2.1

/-- Witness for C5 at a concrete 1x1 tile and 1x2 background. -/
theorem gap_offset_bound_witness :
    0 ≤ (GapOffset.mk 0 30 Option.none).offset ∧
    (GapOffset.mk 0 30 Option.none).offset ≤
      (PixelBuffer.mk 1 2 1 [9, 3]).width - (PixelBuffer.mk 1 1 1 [5]).width ∧
    (GapOffset.mk 0 30 Option.none).offset + (PixelBuffer.mk 1 1 1 [5]).width ≤
      (PixelBuffer.mk 1 2 1 [9, 3]).width :=
  gap_offset_bound.1 ⟨1, 1, 1, [5]⟩ ⟨1, 2, 1, [9, 3]⟩ false ⟨0, 30, Option.none⟩ (by decide)

/-- C6: the `/ocr` endpoint passes exactly the four values (image bytes,
probability, charsets, png_fix), in this order and form, to the core, and
when neither a file nor an image string is supplied it answers the code-400
failure without calling the core. -/
theorem ocr_endpoint_forwards :
    (∀ (α : Type) (core : List Nat → Bool → Option String → Bool → Except String α)
        (p : Bool) (cs : Option String) (pf : Bool),
      ocr_endpoint core Option.none Option.none p cs pf =
        (⟨400, "Either file or image must be provided", Option.none⟩, [])) ∧
    (∀ (α : Type) (core : List Nat → Bool → Option String → Bool → Except String α)
        (file : Option (List Nat)) (image : Option String)
        (p : Bool) (cs : Option String) (pf : Bool) (b : List Nat),
      decode_image (pyOr file image) = .ok b →
      (ocr_endpoint core file image p cs pf).2 = [⟨b, p, cs, pf⟩]) :=
  ⟨fun _ _ _ _ _ => rfl,
   fun _ core file image p cs pf b hdec => ocr_trace_eq core file image p cs pf b hdec⟩

/-- Witness for C6 at a concrete base64 image string. -/
theorem ocr_endpoint_forwards_witness :
    (ocr_endpoint ocrCoreS Option.none (some "TWFu") true (some "abc") true).2 =
      [⟨[77, 97, 110], true, some "abc", true⟩] :=
  ocr_endpoint_forwards.2 _ ocrCoreS Option.none (some "TWFu") true (some "abc") true
    [77, 97, 110] (by decide)

/-- C8: when both an uploaded file and a base64 string are supplied for the
same image, the file takes precedence — the bytes handed onward to the core
are the file's content — in `/ocr`, `/detection`, and (for non-empty files)
`/slide_match`. -/
theorem file_precedence :
    (∀ (α : Type) (core : List Nat → Bool → Option String → Bool → Except String α)
        (f : List Nat) (s : String) (p : Bool) (cs : Option String) (pf : Bool),
      (ocr_endpoint core (some f) (some s) p cs pf).2 = [⟨f, p, cs, pf⟩]) ∧
    (∀ (α : Type) (core : List Nat → Except String α) (f : List Nat) (s : String),
      (detection_endpoint core (some f) (some s)).2 = [⟨f⟩]) ∧
    (∀ (α : Type) (core : List Nat → List Nat → Bool → Except String α)
        (tf bf : List Nat) (ts bs : String) (st : Bool),
      get_file_size tf ≠ 0 → get_file_size bf ≠ 0 →
      (slide_match_endpoint core (some tf) (some bf) (some ts) (some bs) st).2 =
        [⟨tf, bf, st⟩]) := by
  refine ⟨?_, ?_, ?_⟩
  · intro α core f s p cs pf
    exact ocr_trace_eq core (some f) (some s) p cs pf f rfl
  · intro α core f s
    exact det_trace_eq core (some f) (some s) f rfl
  · intro α core tf bf ts bs st h1 h2
    exact slide_trace_eq core tf bf (some ts) (some bs) st h1 h2

/-- Witness for C8 on `/slide_match` with concrete non-empty files alongside
base64 strings. -/
theorem file_precedence_witness :
    (slide_match_endpoint slideCoreS (some [1]) (some [2])
      (some "AA==") (some "BB==") true).2 = [⟨[1], [2], true⟩] :=
  file_precedence.2.2 _ slideCoreS [1] [2] "AA==" "BB==" true (by decide) (by decide)


/-- C3: the three `APIResponse` endpoints map every outcome to a typed
response — success is code 200 "Success" with data, every failure a code
400/500 response without data — and an error of the core call is never
swallowed: it becomes exactly the code-500 response carrying its message.
The handlers are total functions of their inputs, so no exception escapes a
request and none is fatal to the process. -/
theorem endpoint_errors_typed :
    (∀ (α : Type) (core : List Nat → Bool → Option String → Bool → Except String α)
        (file : Option (List Nat)) (image : Option String)
        (p : Bool) (cs : Option String) (pf : Bool),
      ((ocr_endpoint core file image p cs pf).1.code = 200 ∧
        (ocr_endpoint core file image p cs pf).1.message = "Success" ∧
        ∃ d, (ocr_endpoint core file image p cs pf).1.data = some d) ∨
      (((ocr_endpoint core file image p cs pf).1.code = 400 ∨
        (ocr_endpoint core file image p cs pf).1.code = 500) ∧
        (ocr_endpoint core file image p cs pf).1.data = Option.none)) ∧
    (∀ (α : Type) (core : List Nat → Bool → Option String → Bool → Except String α)
        (file : Option (List Nat)) (image : Option String)
        (p : Bool) (cs : Option String) (pf : Bool) (b : List Nat) (e : String),
      decode_image (pyOr file image) = .ok b → core b p cs pf = .error e →
      (ocr_endpoint core file image p cs pf).1 = ⟨500, e, Option.none⟩) ∧
    (∀ (α : Type) (core : List Nat → List Nat → Bool → Except String α)
        (tf bf : Option (List Nat)) (ts bs : Option String) (st : Bool),
      ((slide_match_endpoint core tf bf ts bs st).1.code = 200 ∧
        (slide_match_endpoint core tf bf ts bs st).1.message = "Success" ∧
        ∃ d, (slide_match_endpoint core tf bf ts bs st).1.data = some d) ∨
      (((slide_match_endpoint core tf bf ts bs st).1.code = 400 ∨
        (slide_match_endpoint core tf bf ts bs st).1.code = 500) ∧
        (slide_match_endpoint core tf bf ts bs st).1.data = Option.none)) ∧
    (∀ (α : Type) (core : List Nat → List Nat → Bool → Except String α)
        (tf bf : Option (List Nat)) (ts bs : Option String) (st : Bool)
        (tb bb : List Nat) (e : String),
      decode_image (pyOr tf ts) = .ok tb → decode_image (pyOr bf bs) = .ok bb →
      ¬((∃ f, tf = some f ∧ get_file_size f = 0) ∨
        (∃ f, bf = some f ∧ get_file_size f = 0)) →
      core tb bb st = .error e →
      (slide_match_endpoint core tf bf ts bs st).1 = ⟨500, e, Option.none⟩) ∧
    (∀ (α : Type) (core : List Nat → Except String α)
        (file : Option (List Nat)) (image : Option String),
      ((detection_endpoint core file image).1.code = 200 ∧
        (detection_endpoint core file image).1.message = "Success" ∧
        ∃ d, (detection_endpoint core file image).1.data = some d) ∨
      (((detection_endpoint core file image).1.code = 400 ∨
        (detection_endpoint core file image).1.code = 500) ∧
        (detection_endpoint core file image).1.data = Option.none)) ∧
    (∀ (α : Type) (core : List Nat → Except String α)
        (file : Option (List Nat)) (image : Option String) (b : List Nat) (e : String),
      decode_image (pyOr file image) = .ok b → core b = .error e →
      (detection_endpoint core file image).1 = ⟨500, e, Option.none⟩) := by
  refine ⟨?_, ?_, ?_, ?_, ?_, ?_⟩
  · intro α core file image p cs pf
    rcases file with _ | f <;> rcases image with _ | str
    · exact Or.inr ⟨Or.inl rfl, rfl⟩
    · cases hdec : decode_image (pyOr Option.none (some str)) with
      | error e => exact Or.inr (by simp [ocr_endpoint, hdec])
      | ok b =>
          cases hcore : core b p cs pf with
          | ok r => exact Or.inl (by simp [ocr_endpoint, hdec, hcore])
          | error e => exact Or.inr (by simp [ocr_endpoint, hdec, hcore])
    · cases hcore : core f p cs pf with
      | ok r => exact Or.inl (by simp [ocr_endpoint, pyOr, decode_image, hcore])
      | error e => exact Or.inr (by simp [ocr_endpoint, pyOr, decode_image, hcore])
    · cases hcore : core f p cs pf with
      | ok r => exact Or.inl (by simp [ocr_endpoint, pyOr, decode_image, hcore])
      | error e => exact Or.inr (by simp [ocr_endpoint, pyOr, decode_image, hcore])
  · intro α core file image p cs pf b e hdec hcore
    exact ocr_err_prop core file image p cs pf b e hdec hcore
  · intro α core tf bf ts bs st
    unfold slide_match_endpoint
    split
    · exact Or.inr ⟨Or.inl rfl, rfl⟩
    · split
      · exact Or.inr ⟨Or.inl rfl, rfl⟩
      · cases hdec1 : decode_image (pyOr tf ts) with
        | error e => exact Or.inr (by simp)
        | ok tb =>
            dsimp only
            cases hdec2 : decode_image (pyOr bf bs) with
            | error e => exact Or.inr (by simp)
            | ok bb =>
                dsimp only
                cases hcore : core tb bb st with
                | ok r => exact Or.inl (by simp)
                | error e => exact Or.inr (by simp)
  · intro α core tf bf ts bs st tb bb e hdec1 hdec2 hg hcore
    exact slide_err_prop core tf bf ts bs st tb bb e hdec1 hdec2 hg hcore
  · intro α core file image
    rcases file with _ | f <;> rcases image with _ | str
    · exact Or.inr ⟨Or.inl rfl, rfl⟩
    · cases hdec : decode_image (pyOr Option.none (some str)) with
      | error e => exact Or.inr (by simp [detection_endpoint, hdec])
      | ok b =>
          cases hcore : core b with
          | ok r => exact Or.inl (by simp [detection_endpoint, hdec, hcore])
          | error e => exact Or.inr (by simp [detection_endpoint, hdec, hcore])
    · cases hcore : core f with
      | ok r => exact Or.inl (by simp [detection_endpoint, pyOr, decode_image, hcore])
      | error e => exact Or.inr (by simp [detection_endpoint, pyOr, decode_image, hcore])
    · cases hcore : core f with
      | ok r => exact Or.inl (by simp [detection_endpoint, pyOr, decode_image, hcore])
      | error e => exact Or.inr (by simp [detection_endpoint, pyOr, decode_image, hcore])
  · intro α core file image b e hdec hcore
    exact det_err_prop core file image b e hdec hcore

/-- Witness for C3: with the spec-modelled cores, a core `DecodeError` in
each endpoint surfaces as exactly the code-500 typed failure. -/
theorem endpoint_errors_typed_witness :
    (ocr_endpoint ocrCoreS (some []) Option.none false Option.none false).1 =
      ⟨500, CoreError.msg .DecodeError, Option.none⟩ ∧
    (slide_match_endpoint slideCoreS (some [3]) (some [4])
      Option.none Option.none false).1 = ⟨500, CoreError.msg .DecodeError, Option.none⟩ ∧
    (detection_endpoint detectionCoreS Option.none (some "")).1 =
      ⟨500, CoreError.msg .DecodeError, Option.none⟩ :=
  ⟨endpoint_errors_typed.2.1 _ ocrCoreS (some []) Option.none false Option.none false []
      (CoreError.msg .DecodeError) (by decide) (by decide),
   endpoint_errors_typed.2.2.2.1 _ slideCoreS (some [3]) (some [4])
      Option.none Option.none false [3] [4] (CoreError.msg .DecodeError)
      (by decide) (by decide)
      (by rintro (⟨f, hf, hsz⟩ | ⟨f, hf, hsz⟩) <;>
        (cases Option.some.inj hf; exact absurd hsz (by decide)))
      (by decide),
   endpoint_errors_typed.2.2.2.2.2 _ detectionCoreS Option.none (some "") []
      (CoreError.msg .DecodeError) (by decide) (by decide)⟩

/-- C2 as stated fails on the code: the `/ocr` endpoint does not reject an
empty uploaded file with a code-400 failure before invoking the core — with
the spec-modelled core the call is made on the empty bytes and the response
code is 500, not 400. -/
theorem empty_ocr_counterexample :
    ¬((ocr_endpoint ocrCoreS (some []) Option.none false Option.none false).1.code = 400 ∧
      (ocr_endpoint ocrCoreS (some []) Option.none false Option.none false).2 = []) := by
  decide

/-- C2 (amended): empty byte input to any core call fails with `DecodeError`
(never `InferenceError`); the `/slide_match` endpoint rejects an empty
uploaded target or background file with a code-400 failure before invoking
the core; the `/ocr` and `/detection` endpoints perform no such check — an
empty uploaded file's bytes are passed to the core and a core failure
surfaces as a code-500 response. -/
theorem empty_input_handling :
    (∀ (p : Bool) (cs : Option String) (pf : Bool),
      ocr_classification [] p cs pf = .error .DecodeError) ∧
    (∀ (bb : List Nat) (st : Bool), slide_match [] bb st = .error .DecodeError) ∧
    (∀ (tb : List Nat) (st : Bool), slide_match tb [] st = .error .DecodeError) ∧
    detection [] = .error .DecodeError ∧
    (∀ (α : Type) (core : List Nat → List Nat → Bool → Except String α)
        (f : List Nat) (bf : Option (List Nat)) (t b : Option String) (st : Bool),
      get_file_size f = 0 → (bf ≠ Option.none ∨ b ≠ Option.none) →
      slide_match_endpoint core (some f) bf t b st =
        (⟨400, "Both target and background files must not be empty", Option.none⟩, [])) ∧
    (∀ (α : Type) (core : List Nat → List Nat → Bool → Except String α)
        (tf : Option (List Nat)) (g : List Nat) (t b : Option String) (st : Bool),
      get_file_size g = 0 → (tf ≠ Option.none ∨ t ≠ Option.none) →
      slide_match_endpoint core tf (some g) t b st =
        (⟨400, "Both target and background files must not be empty", Option.none⟩, [])) ∧
    (∀ (α : Type) (core : List Nat → Bool → Option String → Bool → Except String α)
        (p : Bool) (cs : Option String) (pf : Bool),
      (ocr_endpoint core (some []) Option.none p cs pf).2 = [⟨[], p, cs, pf⟩]) ∧
    (∀ (α : Type) (core : List Nat → Bool → Option String → Bool → Except String α)
        (p : Bool) (cs : Option String) (pf : Bool) (e : String),
      core [] p cs pf = .error e →
      (ocr_endpoint core (some []) Option.none p cs pf).1 = ⟨500, e, Option.none⟩) ∧
    (∀ (α : Type) (core : List Nat → Except String α),
      (detection_endpoint core (some []) Option.none).2 = [⟨[]⟩]) ∧
    (∀ (α : Type) (core : List Nat → Except String α) (e : String),
      core [] = .error e →
      (detection_endpoint core (some []) Option.none).1 = ⟨500, e, Option.none⟩) := by
  refine ⟨fun _ _ _ => rfl, fun _ _ => rfl, ?_, rfl, ?_, ?_, ?_, ?_, ?_, ?_⟩
  · intro tb st
    unfold slide_match
    cases hd : ImageCodec.decode tb with
    | error e =>
        dsimp only
        rw [decode_error_eq hd]
    | ok tile => rfl
  · intro α core f bf t b st hsz hbg
    exact slide_empty_target core f bf t b st hsz hbg
  · intro α core tf g t b st hsz htg
    exact slide_empty_background core tf g t b st hsz htg
  · intro α core p cs pf
    exact ocr_trace_eq core (some []) Option.none p cs pf [] rfl
  · intro α core p cs pf e hcore
    exact ocr_err_prop core (some []) Option.none p cs pf [] e rfl hcore
  · intro α core
    exact det_trace_eq core (some []) Option.none [] rfl
  · intro α core e hcore
    exact det_err_prop core (some []) Option.none [] e rfl hcore

/-- Witness for C2 (amended) at concrete empty uploads. -/
theorem empty_input_handling_witness :
    slide_match_endpoint slideCoreS (some []) (some [2]) Option.none Option.none false =
      (⟨400, "Both target and background files must not be empty", Option.none⟩, []) ∧
    slide_match_endpoint slideCoreS (some [7]) (some []) Option.none Option.none true =
      (⟨400, "Both target and background files must not be empty", Option.none⟩, []) ∧
    (ocr_endpoint ocrCoreS (some []) Option.none true Option.none true).1 =
      ⟨500, CoreError.msg .DecodeError, Option.none⟩ ∧
    (detection_endpoint detectionCoreS (some []) Option.none).1 =
      ⟨500, CoreError.msg .DecodeError, Option.none⟩ :=
  ⟨empty_input_handling.2.2.2.2.1 _ slideCoreS [] (some [2]) Option.none Option.none false
      (by decide) (Or.inl (by decide)),
   empty_input_handling.2.2.2.2.2.1 _ slideCoreS (some [7]) [] Option.none Option.none true
      (by decide) (Or.inl (by decide)),
   empty_input_handling.2.2.2.2.2.2.2.1 _ ocrCoreS true Option.none true
      (CoreError.msg .DecodeError) (by decide),
   empty_input_handling.2.2.2.2.2.2.2.2.2 _ detectionCoreS
      (CoreError.msg .DecodeError) (by decide)⟩

end DdddOcr
